import Mathlib

/-
Verification of the supagres query-builder (src/supagres.py) against its
natural-language specification.

The embedding mirrors the psycopg2 sql-composition model: a composed SQL
statement is a flat sequence of atoms, where an atom is either raw SQL text
(sql.SQL), a quoted identifier (sql.Identifier) or a positional placeholder
(sql.Placeholder).  Python runtime values are modelled by the Value type;
operations that can raise a Python exception return Option or Except.
-/

set_option autoImplicit false

/-- Python runtime values as they occur in the builder: None, ints, strings,
booleans and sequences (lists and tuples are both modelled by the list
constructor). -/
inductive Value where
  | none
  | int (n : Int)
  | str (s : String)
  | bool (b : Bool)
  | list (elems : List Value)

/-- A result row or payload row: an ordered mapping from column names to
values, as produced by RealDictCursor and as accepted by insert and upsert. -/
abbrev Row := List (String × Value)

/-- One atom of a composed SQL statement, mirroring psycopg2 sql.Composed:
raw SQL text, a quoted identifier, or a positional placeholder. -/
inductive SqlAtom where
  | raw (s : String)
  | ident (name : String)
  | placeholder
deriving DecidableEq

/-- Python exceptions that the query-construction code can raise. -/
inductive PyError where
  | typeError
  | keyError (key : String)
  | indexError
deriving DecidableEq

/-- Errors reported by the psycopg2 driver when executing a statement. -/
inductive DriverError where
  | queryCanceled
  | otherError (code : Nat)
deriving DecidableEq

/-- The error kinds a terminal operation can surface to the caller: the
uniform timeout error raised in Table.execute, or a propagated driver error. -/
inductive CoreError where
  | timeoutError (msg : String)
  | driverError (e : DriverError)
deriving DecidableEq

/-- The builder state accumulated by Table (src lines 26 to 36); the
connection handle is external and omitted.  The fields filters,
selectColumns, orderByList, limitVal and offsetVal model the attributes
named with a leading underscore in the source. -/
structure Table where
  schema : Option String
  tableName : String
  filters : List (String × String × Value)
  selectColumns : List String
  orderByList : List (String × String)
  limitVal : Option Int
  offsetVal : Option Int

/-- Python str.split with separator sep and maxsplit 1, restricted to the
case where sep occurs: returns the text before the first occurrence and the
whole remainder after it; returns none when sep does not occur. -/
def splitAtFirst (sep : Char) : List Char → Option (List Char × List Char)
  | [] => Option.none
  | c :: cs =>
    if c = sep then some ([], cs)
    else
      match splitAtFirst sep cs with
      | some (pre, post) => some (c :: pre, post)
      | Option.none => Option.none

/-- Models Table constructor (src lines 26 to 36): when the table name
contains a dot, it is split at the first dot into schema and table name;
otherwise the schema is absent and the whole string is the table name. -/
def mkTable (tableName : String) : Table :=
  match splitAtFirst '.' tableName.data with
  | some (pre, post) =>
    { schema := some (String.mk pre), tableName := String.mk post,
      filters := [], selectColumns := ["*"], orderByList := [],
      limitVal := Option.none, offsetVal := Option.none }
  | Option.none =>
    { schema := Option.none, tableName := tableName,
      filters := [], selectColumns := ["*"], orderByList := [],
      limitVal := Option.none, offsetVal := Option.none }

/-- Models Table.select (src lines 38 to 40): replaces the projection with
the given columns, or with the all-columns sentinel when none are given. -/
def Table.select (t : Table) (columns : List String) : Table :=
  { t with selectColumns := if columns.isEmpty then ["*"] else columns }

/-- Models Table._add_filter (src lines 78 to 80): unconditionally appends
the (column, operator, value) triple to the filter list and returns the
builder.  No validation of any kind is performed. -/
def Table.addFilter (t : Table) (column : String) (operator : String) (value : Value) : Table :=
  { t with filters := t.filters ++ [(column, operator, value)] }

/-- Models Table.eq (src lines 42 to 43). -/
def Table.eq (t : Table) (column : String) (value : Value) : Table :=
  t.addFilter column "=" value

/-- Models Table.neq (src lines 45 to 46). -/
def Table.neq (t : Table) (column : String) (value : Value) : Table :=
  t.addFilter column "!=" value

/-- Models Table.gt (src lines 48 to 49). -/
def Table.gt (t : Table) (column : String) (value : Value) : Table :=
  t.addFilter column ">" value

/-- Models Table.in_ (src lines 66 to 67): the operand list is converted to
a tuple and stored in the filter entry. -/
def Table.in_ (t : Table) (column : String) (values : List Value) : Table :=
  t.addFilter column "IN" (Value.list values)

/-- Models Table.not_in (src lines 69 to 70). -/
def Table.not_in (t : Table) (column : String) (values : List Value) : Table :=
  t.addFilter column "NOT IN" (Value.list values)

/-- Models Table.is_null (src lines 72 to 73). -/
def Table.is_null (t : Table) (column : String) : Table :=
  t.addFilter column "IS" Value.none

/-- Models Table.is_not_null (src lines 75 to 76). -/
def Table.is_not_null (t : Table) (column : String) : Table :=
  t.addFilter column "IS NOT" Value.none

/-- Models Table.order (src lines 82 to 84): appends a (column, direction)
pair to the ordering list. -/
def Table.order (t : Table) (column : String) (ascending : Bool) : Table :=
  { t with orderByList := t.orderByList ++ [(column, if ascending then "ASC" else "DESC")] }

/-- Models Table.limit (src lines 86 to 88): overwrites the limit value. -/
def Table.limit (t : Table) (n : Int) : Table :=
  { t with limitVal := some n }

/-- Models Table.offset (src lines 90 to 92): overwrites the offset value. -/
def Table.offset (t : Table) (n : Int) : Table :=
  { t with offsetVal := some n }

/-- Models the join method of psycopg2 sql.SQL: interleaves the separator
atoms between the parts. -/
def sqlJoin (sep : List SqlAtom) : List (List SqlAtom) → List SqlAtom
  | [] => []
  | [x] => x
  | x :: xs => x ++ sep ++ sqlJoin sep xs

/-- A comma-joined run of n placeholders, as produced by joining
sql.Placeholder() * n with a comma separator. -/
def placeholders (n : Nat) : List SqlAtom :=
  sqlJoin [SqlAtom.raw ", "] (List.replicate n [SqlAtom.placeholder])

/-- Number of positional placeholders occurring in a composed fragment. -/
def countPlaceholders : List SqlAtom → Nat
  | [] => 0
  | SqlAtom.placeholder :: rest => countPlaceholders rest + 1
  | _ :: rest => countPlaceholders rest

/-- Python str.upper, modelled character-wise; the operator strings it is
applied to are all ASCII. -/
def pyUpper (s : String) : String :=
  String.mk (s.data.map Char.toUpper)

/-- The elements obtained by iterating a Python value (used both for len and
for list.extend): a sequence yields its elements, a string yields its
characters as one-character strings, anything else raises TypeError
(modelled by none). -/
def seqElems : Value → Option (List Value)
  | Value.list vs => some vs
  | Value.str s => some (s.data.map fun c => Value.str (String.mk [c]))
  | _ => Option.none

/-- Python dict subscription row[key] on an ordered mapping: the value at
the key, or KeyError when the key is absent. -/
def dictGet : Row → String → Except PyError Value
  | [], key => Except.error (PyError.keyError key)
  | (k, v) :: rest, key => if key = k then Except.ok v else dictGet rest key

/-- Evaluates a list comprehension whose element expression can raise: the
first exception aborts the whole comprehension, otherwise the results are
collected in order. -/
def mapExcept {α β ε : Type} (f : α → Except ε β) : List α → Except ε (List β)
  | [] => Except.ok []
  | x :: xs =>
    match f x with
    | Except.error e => Except.error e
    | Except.ok y =>
      match mapExcept f xs with
      | Except.ok ys => Except.ok (y :: ys)
      | Except.error e => Except.error e

/-- Option-valued variant of mapExcept, for code whose only failure is a
raised exception with no payload we track. -/
def mapOption {α β : Type} (f : α → Option β) : List α → Option (List β)
  | [] => some []
  | x :: xs =>
    match f x with
    | some y =>
      match mapOption f xs with
      | some ys => some (y :: ys)
      | Option.none => Option.none
    | Option.none => Option.none

/-- Models the loop body of Table._build_where_clause (src lines 194 to
213): renders one filter entry as a condition fragment.  IN and NOT IN
expand to one placeholder per operand element (TypeError, modelled by none,
when the operand is not a sequence); IS and IS NOT with a None operand
render as a literal NULL comparison with no placeholder; every other
combination renders with a single generic placeholder. -/
def renderCondition (f : String × String × Value) : Option (List SqlAtom) :=
  match f with
  | (column, operator, value) =>
    if pyUpper operator = "IN" ∨ pyUpper operator = "NOT IN" then
      match seqElems value with
      | some elems =>
        some ([SqlAtom.ident column, SqlAtom.raw " ", SqlAtom.raw operator, SqlAtom.raw " ("]
          ++ placeholders elems.length ++ [SqlAtom.raw ")"])
      | Option.none => Option.none
    else
      match value with
      | Value.none =>
        if pyUpper operator = "IS" ∨ pyUpper operator = "IS NOT" then
          some [SqlAtom.ident column, SqlAtom.raw " ", SqlAtom.raw operator, SqlAtom.raw " NULL"]
        else
          some [SqlAtom.ident column, SqlAtom.raw " ", SqlAtom.raw operator, SqlAtom.raw " ",
            SqlAtom.placeholder]
      | _ =>
        some [SqlAtom.ident column, SqlAtom.raw " ", SqlAtom.raw operator, SqlAtom.raw " ",
          SqlAtom.placeholder]

/-- Models Table._build_where_clause (src lines 189 to 215): the empty
filter list yields the empty fragment; otherwise the rendered conditions
are joined with AND after a WHERE keyword. -/
def buildWhereClause (filters : List (String × String × Value)) : Option (List SqlAtom) :=
  match filters with
  | [] => some []
  | fs =>
    match mapOption renderCondition fs with
    | some conditions => some (SqlAtom.raw " WHERE " :: sqlJoin [SqlAtom.raw " AND "] conditions)
    | Option.none => Option.none

/-- Models Table._get_filter_values (src lines 231 to 238): IN and NOT IN
entries contribute all their operand elements in order (TypeError when the
operand is not a sequence); IS and IS NOT with a None operand contribute
nothing; every other entry contributes its operand once. -/
def getFilterValues : List (String × String × Value) → Option (List Value)
  | [] => some []
  | (_, operator, value) :: rest =>
    if pyUpper operator = "IN" ∨ pyUpper operator = "NOT IN" then
      match seqElems value, getFilterValues rest with
      | some elems, some vs => some (elems ++ vs)
      | _, _ => Option.none
    else
      match value with
      | Value.none =>
        if pyUpper operator = "IS" ∨ pyUpper operator = "IS NOT" then
          getFilterValues rest
        else
          match getFilterValues rest with
          | some vs => some (Value.none :: vs)
          | Option.none => Option.none
      | v =>
        match getFilterValues rest with
        | some vs => some (v :: vs)
        | Option.none => Option.none

/-- Models Table._build_order_by_clause (src lines 217 to 223). -/
def buildOrderByClause (orderByList : List (String × String)) : List SqlAtom :=
  match orderByList with
  | [] => []
  | obs =>
    SqlAtom.raw " ORDER BY " ::
      sqlJoin [SqlAtom.raw ", "] (obs.map fun p => [SqlAtom.ident p.1, SqlAtom.raw " ", SqlAtom.raw p.2])

/-- Models Table._build_limit_clause (src lines 225 to 226): the limit
placeholder is part of the raw SQL text. -/
def buildLimitClause : Option Int → List SqlAtom
  | some _ => [SqlAtom.raw " LIMIT %s"]
  | Option.none => []

/-- Models Table._build_offset_clause (src lines 228 to 229). -/
def buildOffsetClause : Option Int → List SqlAtom
  | some _ => [SqlAtom.raw " OFFSET %s"]
  | Option.none => []

/-- Models Table._get_table_identifier (src lines 184 to 187): a truthy
(present and non-empty) schema yields a dotted pair of identifiers,
otherwise the bare table identifier. -/
def tableIdentifier (t : Table) : List SqlAtom :=
  match t.schema with
  | some s =>
    if s = "" then [SqlAtom.ident t.tableName]
    else [SqlAtom.ident s, SqlAtom.raw ".", SqlAtom.ident t.tableName]
  | Option.none => [SqlAtom.ident t.tableName]

/-- Models the projection of Table.execute (src lines 95 to 98): the
all-columns sentinel compiles to a literal star, otherwise the projected
columns are quoted and comma-joined. -/
def selectClauseOf (cols : List String) : List SqlAtom :=
  if cols = ["*"] then [SqlAtom.raw "*"]
  else sqlJoin [SqlAtom.raw ", "] (cols.map fun c => [SqlAtom.ident c])

/-- The parameter contributed by the limit value (src lines 112 to 113). -/
def limitParams : Option Int → List Value
  | some n => [Value.int n]
  | Option.none => []

/-- The parameter contributed by the offset value (src lines 114 to 115). -/
def offsetParams : Option Int → List Value
  | some n => [Value.int n]
  | Option.none => []

/-- Models the query and parameter construction of Table.execute (src lines
94 to 115), everything before the cursor block.  The six query parts are
joined with single spaces; the Python filter with predicate None over the
parts drops nothing, because psycopg2 Composable objects define no
truthiness and are always truthy.  The parameter list is the flattened
filter values followed by the limit value when set, then the offset value
when set. -/
def Table.compileSelect (t : Table) : Option (List SqlAtom × List Value) :=
  match buildWhereClause t.filters, getFilterValues t.filters with
  | some wc, some params =>
    some (sqlJoin [SqlAtom.raw " "]
      [SqlAtom.raw "SELECT " :: selectClauseOf t.selectColumns ++ [SqlAtom.raw " FROM"],
       tableIdentifier t, wc, buildOrderByClause t.orderByList,
       buildLimitClause t.limitVal, buildOffsetClause t.offsetVal],
      params ++ limitParams t.limitVal ++ offsetParams t.offsetVal)
  | _, _ => Option.none

/-- Models the query and parameter construction of Table.insert (src lines
124 to 135): an empty row list fails with IndexError at the first-row
subscript; the column list is the first row's keys; each row is evaluated
against that column list, raising KeyError on a missing column; extra keys
in later rows are never consulted.  The per-row parameter tuples are
returned as a list of rows of values. -/
def Table.insertCompile (t : Table) (data : List Row) :
    Except PyError (List SqlAtom × List (List Value)) :=
  match data with
  | [] => Except.error PyError.indexError
  | r0 :: rest =>
    let columns := r0.map Prod.fst
    match mapExcept (fun row => mapExcept (dictGet row) columns) (r0 :: rest) with
    | Except.error e => Except.error e
    | Except.ok values =>
      Except.ok (SqlAtom.raw "INSERT INTO " :: tableIdentifier t
        ++ [SqlAtom.raw " ("] ++ sqlJoin [SqlAtom.raw ", "] (columns.map fun c => [SqlAtom.ident c])
        ++ [SqlAtom.raw ") VALUES "]
        ++ sqlJoin [SqlAtom.raw ", "] (List.replicate (r0 :: rest).length [SqlAtom.placeholder])
        ++ [SqlAtom.raw " RETURNING *"],
        values)

/-- The assignment fragment for one update-target column of an upsert,
rendered from the two-identifier EXCLUDED template (src line 155). -/
def setAssignment (col : String) : List SqlAtom :=
  [SqlAtom.ident col, SqlAtom.raw " = EXCLUDED.", SqlAtom.ident col]

/-- The update-target columns of an upsert (src line 148): the payload
columns that are not conflict columns, in payload order. -/
def upsertUpdateColumns (columns : List String) (conflictColumns : List String) : List String :=
  columns.filter fun col => !(conflictColumns.contains col)

/-- Models the query and parameter construction of Table.upsert (src lines
141 to 156): identical to insert up to the VALUES groups, followed by the
conflict-column list and one EXCLUDED assignment per update-target
column. -/
def Table.upsertCompile (t : Table) (data : List Row) (conflictColumns : List String) :
    Except PyError (List SqlAtom × List (List Value)) :=
  match data with
  | [] => Except.error PyError.indexError
  | r0 :: rest =>
    let columns := r0.map Prod.fst
    match mapExcept (fun row => mapExcept (dictGet row) columns) (r0 :: rest) with
    | Except.error e => Except.error e
    | Except.ok values =>
      Except.ok (SqlAtom.raw "INSERT INTO " :: tableIdentifier t
        ++ [SqlAtom.raw " ("] ++ sqlJoin [SqlAtom.raw ", "] (columns.map fun c => [SqlAtom.ident c])
        ++ [SqlAtom.raw ") VALUES "]
        ++ sqlJoin [SqlAtom.raw ", "] (List.replicate (r0 :: rest).length [SqlAtom.placeholder])
        ++ [SqlAtom.raw " ON CONFLICT ("]
        ++ sqlJoin [SqlAtom.raw ", "] (conflictColumns.map fun c => [SqlAtom.ident c])
        ++ [SqlAtom.raw ") DO UPDATE SET "]
        ++ sqlJoin [SqlAtom.raw ", "] ((upsertUpdateColumns columns conflictColumns).map setAssignment)
        ++ [SqlAtom.raw " RETURNING *"],
        values)

/-- Models the query and parameter construction of Table.update (src lines
162 to 171): one quoted-identifier assignment with a placeholder per data
key, an empty data mapping yielding an empty SET list with no error; the
parameters are the data values followed by the filter values. -/
def Table.updateCompile (t : Table) (data : List (String × Value)) :
    Option (List SqlAtom × List Value) :=
  match buildWhereClause t.filters, getFilterValues t.filters with
  | some wc, some fv =>
    some (SqlAtom.raw "UPDATE " :: tableIdentifier t ++ [SqlAtom.raw " SET "]
      ++ sqlJoin [SqlAtom.raw ", "]
          (data.map fun p => [SqlAtom.ident p.1, SqlAtom.raw " = ", SqlAtom.placeholder])
      ++ [SqlAtom.raw " "] ++ wc ++ [SqlAtom.raw " RETURNING *"],
      data.map Prod.snd ++ fv)
  | _, _ => Option.none

/-- Models the query and parameter construction of Table.delete (src lines
174 to 178). -/
def Table.deleteCompile (t : Table) : Option (List SqlAtom × List Value) :=
  match buildWhereClause t.filters, getFilterValues t.filters with
  | some wc, some fv =>
    some (SqlAtom.raw "DELETE FROM " :: tableIdentifier t ++ [SqlAtom.raw " "]
      ++ wc ++ [SqlAtom.raw " RETURNING *"], fv)
  | _, _ => Option.none

/-- Models the cursor block of Table.execute (src lines 117 to 122): the
driver outcome of executing the compiled statement is passed through, except
that a QueryCanceled driver error is translated into the uniform timeout
error with the fixed message. -/
def Table.executeRun (outcome : Except DriverError (List Row)) : Except CoreError (List Row) :=
  match outcome with
  | Except.ok rows => Except.ok rows
  | Except.error DriverError.queryCanceled =>
    Except.error (CoreError.timeoutError "Query execution timed out")
  | Except.error e => Except.error (CoreError.driverError e)

/-- Models the cursor block of Table.insert (src lines 137 to 139): no
exception handler is present, so every driver error propagates unchanged. -/
def Table.insertRun (outcome : Except DriverError (List Row)) : Except CoreError (List Row) :=
  match outcome with
  | Except.ok rows => Except.ok rows
  | Except.error e => Except.error (CoreError.driverError e)

/-- Models the cursor block of Table.upsert (src lines 158 to 160): no
exception handler. -/
def Table.upsertRun (outcome : Except DriverError (List Row)) : Except CoreError (List Row) :=
  match outcome with
  | Except.ok rows => Except.ok rows
  | Except.error e => Except.error (CoreError.driverError e)

/-- Models the cursor block of Table.update (src lines 170 to 172): no
exception handler. -/
def Table.updateRun (outcome : Except DriverError (List Row)) : Except CoreError (List Row) :=
  match outcome with
  | Except.ok rows => Except.ok rows
  | Except.error e => Except.error (CoreError.driverError e)

/-- Models the cursor block of Table.delete (src lines 180 to 182): no
exception handler. -/
def Table.deleteRun (outcome : Except DriverError (List Row)) : Except CoreError (List Row) :=
  match outcome with
  | Except.ok rows => Except.ok rows
  | Except.error e => Except.error (CoreError.driverError e)

/-- Models the cursor block of RPC.call (src lines 251 to 254): no
exception handler. -/
def RPC.callRun (outcome : Except DriverError (List Row)) : Except CoreError (List Row) :=
  match outcome with
  | Except.ok rows => Except.ok rows
  | Except.error e => Except.error (CoreError.driverError e)

/-- Models the result extraction of RPC.call (src lines 253 to 254): the
fetched row is None when the call returned zero rows; a falsy result (absent
row, or empty row dict) yields None, otherwise the row is subscripted at the
procedure name (KeyError when that column is absent). -/
def RPC.callExtract (procedure : String) (fetched : Option Row) : Except PyError Value :=
  match fetched with
  | Option.none => Except.ok Value.none
  | some row =>
    if row.isEmpty then Except.ok Value.none
    else dictGet row procedure

/-- Whether an Except value is a success (no exception was raised). -/
def isOkE {ε α : Type} : Except ε α → Bool
  | Except.ok _ => true
  | Except.error _ => false

theorem countPlaceholders_append (a b : List SqlAtom) :
    countPlaceholders (a ++ b) = countPlaceholders a + countPlaceholders b := by
  induction a with
  | nil => simp [countPlaceholders]
  | cons x xs ih =>
    cases x with
    | raw s => simp [countPlaceholders, ih]
    | ident n => simp [countPlaceholders, ih]
    | placeholder =>
      simp [countPlaceholders, ih]
      omega

theorem countPlaceholders_sqlJoin (sep : List SqlAtom) (parts : List (List SqlAtom))
    (h : countPlaceholders sep = 0) :
    countPlaceholders (sqlJoin sep parts) = (parts.map countPlaceholders).sum := by
  induction parts with
  | nil => rfl
  | cons x xs ih =>
    cases xs with
    | nil => simp [sqlJoin]
    | cons y ys =>
      have hstep : sqlJoin sep (x :: y :: ys) = x ++ sep ++ sqlJoin sep (y :: ys) := rfl
      rw [hstep, countPlaceholders_append, countPlaceholders_append, h, ih]
      simp [List.sum_cons]

theorem count_placeholders_run (n : Nat) : countPlaceholders (placeholders n) = n := by
  have h : countPlaceholders [SqlAtom.raw ", "] = 0 := rfl
  rw [placeholders, countPlaceholders_sqlJoin _ _ h]
  simp [List.map_replicate, List.sum_replicate, countPlaceholders]

theorem splitAtFirst_append (sep : Char) (pre post : List Char) (h : sep ∉ pre) :
    splitAtFirst sep (pre ++ sep :: post) = some (pre, post) := by
  induction pre with
  | nil => simp [splitAtFirst]
  | cons c cs ih =>
    have hc : ¬ (c = sep) := by
      intro hc
      subst hc
      exact h (List.mem_cons_self _ _)
    have hrest : sep ∉ cs := fun hm => h (List.mem_cons_of_mem _ hm)
    simp [splitAtFirst, hc, ih hrest]

theorem splitAtFirst_eq_none (sep : Char) (l : List Char) (h : sep ∉ l) :
    splitAtFirst sep l = Option.none := by
  induction l with
  | nil => rfl
  | cons c cs ih =>
    have hc : ¬ (c = sep) := by
      intro hc
      subst hc
      exact h (List.mem_cons_self _ _)
    have hrest : sep ∉ cs := fun hm => h (List.mem_cons_of_mem _ hm)
    simp [splitAtFirst, hc, ih hrest]

theorem mapExcept_isOk {α β ε : Type} (f : α → Except ε β) (l : List α)
    (h : ∀ x, x ∈ l → isOkE (f x) = true) : isOkE (mapExcept f l) = true := by
  induction l with
  | nil => rfl
  | cons x xs ih =>
    have hx := h x (List.mem_cons_self x xs)
    have hxs := ih fun y hy => h y (List.mem_cons_of_mem x hy)
    cases hfx : f x with
    | error e =>
      rw [hfx] at hx
      exact absurd hx (by simp [isOkE])
    | ok y =>
      cases hrec : mapExcept f xs with
      | error e =>
        rw [hrec] at hxs
        exact absurd hxs (by simp [isOkE])
      | ok ys => simp [mapExcept, hfx, hrec, isOkE]

/-- C1: the claim states that a filter-append call with an operand shape
that does not match the operator fails with InvalidFilterError at append
time.  Counterexample: appending the operator IS with the non-null operand
5 succeeds: the entry is recorded on the builder, no error of any kind is
raised (no InvalidFilterError exists in the code), and the entry is later
compiled by the generic branch with a placeholder and a bound parameter. -/
theorem c1_counterexample :
    (Table.addFilter (mkTable "t") "status" "IS" (Value.int 5)).filters
        = [("status", "IS", Value.int 5)]
      ∧ renderCondition ("status", "IS", Value.int 5)
        = some [SqlAtom.ident "status", SqlAtom.raw " ", SqlAtom.raw "IS", SqlAtom.raw " ",
            SqlAtom.placeholder]
      ∧ getFilterValues [("status", "IS", Value.int 5)] = some [Value.int 5] :=
  ⟨rfl, rfl, rfl⟩

/-- C1 (amended): the filter-append method performs no operand-shape
validation at all: it unconditionally appends the (column, operator,
operand) triple and returns the builder, and an ill-shaped entry such as IS
with a non-null operand is compiled later by the generic scalar branch with
a placeholder, never rejected with InvalidFilterError. -/
theorem c1_filter_append_never_validates :
    (∀ (t : Table) (c op : String) (v : Value),
        (Table.addFilter t c op v).filters = t.filters ++ [(c, op, v)])
      ∧ (∀ (c : String) (n : Int),
          renderCondition (c, "IS", Value.int n)
            = some [SqlAtom.ident c, SqlAtom.raw " ", SqlAtom.raw "IS", SqlAtom.raw " ",
                SqlAtom.placeholder]) := by
  constructor
  · intro t c op v
    rfl
  · intro c n
    have h1 : ¬ (pyUpper "IS" = "IN" ∨ pyUpper "IS" = "NOT IN") := by decide
    simp only [renderCondition]
    rw [if_neg h1]

/-- C2: the claim states that an RPC call returning zero rows is
distinguishable by the caller from a call returning one row whose value is
null.  Counterexample: both outcomes evaluate to the same returned value,
the Python None. -/
theorem c2_counterexample :
    RPC.callExtract "f" Option.none = Except.ok Value.none
      ∧ RPC.callExtract "f" (some [("f", Value.none)]) = Except.ok Value.none :=
  ⟨rfl, rfl⟩

/-- C2 (amended): an RPC call that returns zero rows yields None, the very
same value as a call that returns one row whose single column is null; the
two outcomes are not distinguishable from the returned value. -/
theorem c2_zero_rows_indistinguishable_from_null :
    ∀ procedure : String,
      RPC.callExtract procedure Option.none
        = RPC.callExtract procedure (some [(procedure, Value.none)]) := by
  intro p
  simp [RPC.callExtract, dictGet]

/-- C3: the claim states that every terminal operation translates the
driver's statement-timeout cancellation into the uniform TimeoutError.
Counterexample: the DELETE cursor block has no exception handler, so a
QueryCanceled driver error surfaces as the driver-specific error, not as
the uniform timeout error. -/
theorem c3_counterexample :
    Table.deleteRun (Except.error DriverError.queryCanceled)
      = Except.error (CoreError.driverError DriverError.queryCanceled) :=
  rfl

/-- C3 (amended): only the SELECT execute path translates the driver's
QueryCanceled into the uniform TimeoutError; INSERT, UPSERT, UPDATE, DELETE
and the RPC call have no handler and propagate the driver-specific error
unchanged. -/
theorem c3_only_select_translates_timeout :
    Table.executeRun (Except.error DriverError.queryCanceled)
        = Except.error (CoreError.timeoutError "Query execution timed out")
      ∧ Table.insertRun (Except.error DriverError.queryCanceled)
        = Except.error (CoreError.driverError DriverError.queryCanceled)
      ∧ Table.upsertRun (Except.error DriverError.queryCanceled)
        = Except.error (CoreError.driverError DriverError.queryCanceled)
      ∧ Table.updateRun (Except.error DriverError.queryCanceled)
        = Except.error (CoreError.driverError DriverError.queryCanceled)
      ∧ Table.deleteRun (Except.error DriverError.queryCanceled)
        = Except.error (CoreError.driverError DriverError.queryCanceled)
      ∧ RPC.callRun (Except.error DriverError.queryCanceled)
        = Except.error (CoreError.driverError DriverError.queryCanceled) :=
  ⟨rfl, rfl, rfl, rfl, rfl, rfl⟩

/-- C4: the claim states that a multi-row INSERT or UPSERT payload whose
rows do not all share an identical column-key set fails with
SchemaMismatchError before executing any statement.  Counterexample: the
payload rows have key sets that differ (the second row has an extra key b),
yet the insert compiles successfully, silently dropping the extra column. -/
theorem c4_counterexample :
    Table.insertCompile (mkTable "t")
        [[("a", Value.int 1)], [("a", Value.int 2), ("b", Value.int 3)]]
      = Except.ok ([SqlAtom.raw "INSERT INTO ", SqlAtom.ident "t", SqlAtom.raw " (",
          SqlAtom.ident "a", SqlAtom.raw ") VALUES ", SqlAtom.placeholder, SqlAtom.raw ", ",
          SqlAtom.placeholder, SqlAtom.raw " RETURNING *"],
        [[Value.int 1], [Value.int 2]]) :=
  rfl

/-- C4 (amended): divergent key sets never raise SchemaMismatchError.  The
column list is taken from the first row; a later row that lacks one of
those keys fails with KeyError while the payload values are gathered, and a
row with extra keys compiles successfully with the extra columns silently
ignored. -/
theorem c4_divergent_keys_no_schema_error :
    Table.insertCompile (mkTable "t")
          [[("a", Value.int 1), ("b", Value.int 2)], [("a", Value.int 3)]]
        = Except.error (PyError.keyError "b")
      ∧ (∀ (t : Table) (r0 : Row) (rest : List Row),
          (∀ r, r ∈ (r0 :: rest : List Row) → ∀ c, c ∈ r0.map Prod.fst →
            isOkE (dictGet r c) = true) →
          isOkE (Table.insertCompile t (r0 :: rest)) = true) := by
  constructor
  · rfl
  · intro t r0 rest h
    have hall : isOkE (mapExcept (fun row => mapExcept (dictGet row) (r0.map Prod.fst))
        (r0 :: rest)) = true :=
      mapExcept_isOk _ _ fun r hr => mapExcept_isOk _ _ fun c hc => h r hr c hc
    cases hm : mapExcept (fun row => mapExcept (dictGet row) (r0.map Prod.fst)) (r0 :: rest) with
    | error e =>
      rw [hm] at hall
      exact absurd hall (by simp [isOkE])
    | ok v => simp [Table.insertCompile, hm, isOkE]

/-- C4 witness: the amended theorem applied to a concrete payload whose
second row has an extra key; the insert compiles successfully. -/
theorem c4_witness :
    isOkE (Table.insertCompile (mkTable "t")
        [[("a", Value.int 1)], [("a", Value.int 2), ("b", Value.int 3)]]) = true :=
  c4_divergent_keys_no_schema_error.2 (mkTable "t") [("a", Value.int 1)]
    [[("a", Value.int 2), ("b", Value.int 3)]] (by decide)

/-- C5: the claim states that UPDATE with an empty data mapping and INSERT
or UPSERT with zero rows each fail with EmptyPayloadError before any
statement is executed.  Counterexample: INSERT with zero rows fails with
IndexError (from subscripting the first row), not EmptyPayloadError, and
UPDATE with an empty mapping raises nothing at all: it compiles a
degenerate statement with an empty SET list that would be handed to the
driver. -/
theorem c5_counterexample :
    Table.insertCompile (mkTable "t") [] = Except.error PyError.indexError
      ∧ Table.updateCompile (mkTable "t") []
        = some ([SqlAtom.raw "UPDATE ", SqlAtom.ident "t", SqlAtom.raw " SET ",
            SqlAtom.raw " ", SqlAtom.raw " RETURNING *"], []) :=
  ⟨rfl, rfl⟩

/-- C5 (amended): INSERT and UPSERT with zero rows fail with IndexError
when the first row is subscripted (not EmptyPayloadError, which does not
exist in the code), while UPDATE with an empty data mapping is never
rejected: it compiles a statement whose SET list is empty and whose
parameters are just the filter values. -/
theorem c5_empty_payload_behaviour :
    (∀ (t : Table) (conflictColumns : List String),
        Table.insertCompile t [] = Except.error PyError.indexError
          ∧ Table.upsertCompile t [] conflictColumns = Except.error PyError.indexError)
      ∧ (∀ (t : Table) (wc : List SqlAtom) (fv : List Value),
          buildWhereClause t.filters = some wc → getFilterValues t.filters = some fv →
          Table.updateCompile t []
            = some (SqlAtom.raw "UPDATE " :: tableIdentifier t ++ [SqlAtom.raw " SET "]
                ++ [SqlAtom.raw " "] ++ wc ++ [SqlAtom.raw " RETURNING *"], fv)) := by
  constructor
  · intro t cc
    exact ⟨rfl, rfl⟩
  · intro t wc fv h1 h2
    simp [Table.updateCompile, h1, h2, sqlJoin]

/-- C5 witness: the amended theorem applied to a fresh builder with no
filters; the empty UPDATE compiles with an empty SET list and no
parameters. -/
theorem c5_witness :
    Table.updateCompile (mkTable "t") []
      = some (SqlAtom.raw "UPDATE " :: tableIdentifier (mkTable "t") ++ [SqlAtom.raw " SET "]
          ++ [SqlAtom.raw " "] ++ [] ++ [SqlAtom.raw " RETURNING *"], []) :=
  c5_empty_payload_behaviour.2 (mkTable "t") [] [] rfl rfl

/-- C6: for an IN or NOT IN filter entry with an operand sequence of length
N, the compiled condition contains exactly N placeholders and contributes
exactly the N operand values to the parameter list, in their original
order; for an IS or IS NOT entry with a null operand, the compiled
condition is the quoted column, the operator and a literal NULL, with zero
placeholders and zero contributed parameters. -/
theorem c6_in_null_placeholder_counts :
    (∀ (col op : String) (vs : List Value) (rest : List (String × String × Value))
        (rvs : List Value),
        (pyUpper op = "IN" ∨ pyUpper op = "NOT IN") →
        getFilterValues rest = some rvs →
        renderCondition (col, op, Value.list vs)
            = some ([SqlAtom.ident col, SqlAtom.raw " ", SqlAtom.raw op, SqlAtom.raw " ("]
                ++ placeholders vs.length ++ [SqlAtom.raw ")"])
          ∧ countPlaceholders ([SqlAtom.ident col, SqlAtom.raw " ", SqlAtom.raw op,
              SqlAtom.raw " ("] ++ placeholders vs.length ++ [SqlAtom.raw ")"]) = vs.length
          ∧ getFilterValues ((col, op, Value.list vs) :: rest) = some (vs ++ rvs))
      ∧ (∀ (col op : String) (rest : List (String × String × Value)) (rvs : List Value),
          (pyUpper op = "IS" ∨ pyUpper op = "IS NOT") →
          getFilterValues rest = some rvs →
          renderCondition (col, op, Value.none)
              = some [SqlAtom.ident col, SqlAtom.raw " ", SqlAtom.raw op, SqlAtom.raw " NULL"]
            ∧ countPlaceholders [SqlAtom.ident col, SqlAtom.raw " ", SqlAtom.raw op,
                SqlAtom.raw " NULL"] = 0
            ∧ getFilterValues ((col, op, Value.none) :: rest) = some rvs) := by
  constructor
  · intro col op vs rest rvs h hrest
    rcases h with h | h <;>
      exact ⟨by simp [renderCondition, h, seqElems],
        by simp [countPlaceholders, countPlaceholders_append, count_placeholders_run],
        by simp [getFilterValues, h, seqElems, hrest]⟩
  · intro col op rest rvs h hrest
    rcases h with h | h <;>
      exact ⟨by simp [renderCondition, h, seqElems],
        by simp [countPlaceholders],
        by simp [getFilterValues, h, seqElems, hrest]⟩

/-- C6 witness: the theorem applied to a concrete IN filter with two
operand values and to a concrete IS filter with a null operand. -/
theorem c6_witness :
    (renderCondition ("c", "IN", Value.list [Value.int 1, Value.int 2])
          = some ([SqlAtom.ident "c", SqlAtom.raw " ", SqlAtom.raw "IN", SqlAtom.raw " ("]
              ++ placeholders 2 ++ [SqlAtom.raw ")"])
        ∧ countPlaceholders ([SqlAtom.ident "c", SqlAtom.raw " ", SqlAtom.raw "IN",
            SqlAtom.raw " ("] ++ placeholders 2 ++ [SqlAtom.raw ")"]) = 2
        ∧ getFilterValues [("c", "IN", Value.list [Value.int 1, Value.int 2])]
            = some [Value.int 1, Value.int 2])
      ∧ (renderCondition ("c", "IS", Value.none)
          = some [SqlAtom.ident "c", SqlAtom.raw " ", SqlAtom.raw "IS", SqlAtom.raw " NULL"]
        ∧ countPlaceholders [SqlAtom.ident "c", SqlAtom.raw " ", SqlAtom.raw "IS",
            SqlAtom.raw " NULL"] = 0
        ∧ getFilterValues [("c", "IS", Value.none)] = some []) :=
  ⟨c6_in_null_placeholder_counts.1 "c" "IN" [Value.int 1, Value.int 2] [] [] (by decide) rfl,
   c6_in_null_placeholder_counts.2 "c" "IS" [] [] (by decide) rfl⟩

/-- C7: the compiled SELECT has the fixed clause order (projection, FROM,
WHERE, ORDER BY, LIMIT, OFFSET) and its parameter list is the WHERE
parameters followed by the limit value when set, then the offset value when
set; in particular a SELECT with limit 10, offset 5 and no filters yields
the parameter list with values 10 then 5. -/
theorem c7_select_clause_and_param_order :
    (∀ (t : Table) (wc : List SqlAtom) (wps : List Value),
        buildWhereClause t.filters = some wc → getFilterValues t.filters = some wps →
        Table.compileSelect t
          = some ((SqlAtom.raw "SELECT " :: selectClauseOf t.selectColumns
                ++ [SqlAtom.raw " FROM"])
              ++ [SqlAtom.raw " "] ++ tableIdentifier t
              ++ [SqlAtom.raw " "] ++ wc
              ++ [SqlAtom.raw " "] ++ buildOrderByClause t.orderByList
              ++ [SqlAtom.raw " "] ++ buildLimitClause t.limitVal
              ++ [SqlAtom.raw " "] ++ buildOffsetClause t.offsetVal,
            wps ++ limitParams t.limitVal ++ offsetParams t.offsetVal))
      ∧ (∀ t : Table, t.filters = [] → t.limitVal = some 10 → t.offsetVal = some 5 →
          Option.map Prod.snd (Table.compileSelect t) = some [Value.int 10, Value.int 5]) := by
  constructor
  · intro t wc wps h1 h2
    simp [Table.compileSelect, h1, h2, sqlJoin, List.append_assoc]
  · intro t hf hl ho
    simp [Table.compileSelect, hf, hl, ho, buildWhereClause, getFilterValues,
      limitParams, offsetParams]

/-- C7 witness: the theorem applied to a fresh builder with limit 10 and
offset 5 and no filters; the parameter list is exactly 10 then 5. -/
theorem c7_witness :
    Option.map Prod.snd (Table.compileSelect (Table.offset (Table.limit (mkTable "t") 10) 5))
      = some [Value.int 10, Value.int 5] :=
  c7_select_clause_and_param_order.2 (Table.offset (Table.limit (mkTable "t") 10) 5)
    rfl rfl rfl

/-- C8: the DO UPDATE SET clause of a compiled UPSERT assigns an EXCLUDED
value to exactly the payload columns that are not conflict columns; in
particular upserting a row with columns id and name on conflict column id
produces an update set covering exactly name and not id. -/
theorem c8_upsert_update_set :
    (∀ (columns conflictColumns : List String) (col : String),
        col ∈ upsertUpdateColumns columns conflictColumns
          ↔ (col ∈ columns ∧ conflictColumns.contains col = false))
      ∧ Table.upsertCompile (mkTable "t")
          [[("id", Value.int 1), ("name", Value.str "x")]] ["id"]
        = Except.ok ([SqlAtom.raw "INSERT INTO ", SqlAtom.ident "t", SqlAtom.raw " (",
            SqlAtom.ident "id", SqlAtom.raw ", ", SqlAtom.ident "name", SqlAtom.raw ") VALUES ",
            SqlAtom.placeholder, SqlAtom.raw " ON CONFLICT (", SqlAtom.ident "id",
            SqlAtom.raw ") DO UPDATE SET ", SqlAtom.ident "name", SqlAtom.raw " = EXCLUDED.",
            SqlAtom.ident "name", SqlAtom.raw " RETURNING *"],
          [[Value.int 1, Value.str "x"]]) := by
  constructor
  · intro columns cc col
    simp [upsertUpdateColumns, List.mem_filter]
  · rfl

/-- C9: filter and ordering methods only ever append to the accumulated
sequences, while select, limit and offset are last-write-wins; in
particular calling select after appending two filters leaves both filters
in place. -/
theorem c9_append_vs_overwrite :
    (∀ (t : Table) (c op : String) (v : Value),
        (Table.addFilter t c op v).filters = t.filters ++ [(c, op, v)]
          ∧ (Table.addFilter t c op v).selectColumns = t.selectColumns)
      ∧ (∀ (t : Table) (c : String) (b : Bool),
          (Table.order t c b).orderByList
              = t.orderByList ++ [(c, if b then "ASC" else "DESC")]
            ∧ (Table.order t c b).filters = t.filters)
      ∧ (∀ (t : Table) (cols : List String),
          (Table.select t cols).filters = t.filters
            ∧ (Table.select t cols).orderByList = t.orderByList
            ∧ (Table.select t cols).selectColumns = (if cols.isEmpty then ["*"] else cols))
      ∧ (∀ (t : Table) (cols cols2 : List String),
          (Table.select (Table.select t cols) cols2).selectColumns
            = (if cols2.isEmpty then ["*"] else cols2))
      ∧ (∀ (t : Table) (n m : Int),
          (Table.limit (Table.limit t n) m).limitVal = some m
            ∧ (Table.offset (Table.offset t n) m).offsetVal = some m
            ∧ (Table.limit t n).filters = t.filters
            ∧ (Table.offset t n).filters = t.filters)
      ∧ (∀ (t : Table) (c op : String) (v : Value) (c2 op2 : String) (v2 : Value)
          (cols : List String),
          (Table.select (Table.addFilter (Table.addFilter t c op v) c2 op2 v2) cols).filters
            = t.filters ++ [(c, op, v), (c2, op2, v2)]) := by
  refine ⟨?_, ?_, ?_, ?_, ?_, ?_⟩ <;> intros <;>
    simp [Table.addFilter, Table.order, Table.select, Table.limit, Table.offset,
      List.append_assoc]

/-- C10: builder construction splits a dotted table name only at the first
dot: the schema is the text before the first dot and the relation name is
the entire remainder, which may itself contain further dots; a name with no
dot yields no schema and the whole string as the relation name. -/
theorem c10_qualified_name_split :
    (∀ (pre post : List Char), '.' ∉ pre →
        (mkTable (String.mk (pre ++ '.' :: post))).schema = some (String.mk pre)
          ∧ (mkTable (String.mk (pre ++ '.' :: post))).tableName = String.mk post)
      ∧ (∀ s : String, '.' ∉ s.data →
          (mkTable s).schema = Option.none ∧ (mkTable s).tableName = s) := by
  constructor
  · intro pre post h
    have hs : splitAtFirst '.' (String.mk (pre ++ '.' :: post)).data = some (pre, post) :=
      splitAtFirst_append '.' pre post h
    exact ⟨by simp [mkTable, hs], by simp [mkTable, hs]⟩
  · intro s h
    have hs : splitAtFirst '.' s.data = Option.none := splitAtFirst_eq_none '.' s.data h
    exact ⟨by simp [mkTable, hs], by simp [mkTable, hs]⟩

/-- C10 witness: the theorem applied to a doubly dotted name: the schema is
the text before the first dot and the remainder, dots included, is the
relation name. -/
theorem c10_witness :
    (mkTable (String.mk ("public".data ++ '.' :: "users.v2".data))).schema
        = some (String.mk "public".data)
      ∧ (mkTable (String.mk ("public".data ++ '.' :: "users.v2".data))).tableName
        = String.mk "users.v2".data :=
  c10_qualified_name_split.1 "public".data "users.v2".data (by decide)
